import Mathlib

/-!
Shallow embedding of the browser session and tab lifecycle manager of
`src/browser/connection.ts` and of the in-page interactable-element
extraction and `puppeteer_evaluate` listener handling of
`src/config/browser.ts` (puppeteer-mcp-server).

Pages and browsers are identified by natural-number ids handed out by a
fresh-id counter, which models JavaScript object identity (`===`).
Tab indices are `Int`, modelling JS numbers: a negative index into an
array yields `undefined`, which `jsGet` renders as `none`.
The engine-side nondeterminism (how many initial pages a freshly
launched browser reports, whether a navigation or a script evaluation
fails) is passed in as explicit parameters.
-/

set_option autoImplicit false

/-- JS array read `l[i]`: `undefined` (`none`) for a negative or
out-of-range index. -/
def jsGet (l : List Nat) (i : Int) : Option Nat :=
  if 0 ≤ i then l[i.toNat]? else none

/-- One running browser connection (`Browser` object of puppeteer), as the
session code observes it: its identity, its `connected` flag, how many
`'disconnected'` observers were attached to it, and the ordered list of its
open pages (`browser.pages()`). -/
structure Browser where
  id : Nat
  connected : Bool
  observerCount : Nat
  pages : List Nat
  deriving Repr, DecidableEq

/-- The module-level mutable state of `connection.ts`: the globals
`browser`, `currentPage` and `disconnectHandlerAttached`, plus a fresh-id
counter and the set of ids of pages that have been closed (so that
`currentPage.isClosed()` is observable). -/
structure SessionState where
  browser : Option Browser
  currentPage : Option Nat
  disconnectHandlerAttached : Bool
  nextId : Nat
  closedPages : List Nat
  deriving Repr, DecidableEq

/-- Errors thrown by the tab-lifecycle functions. -/
inductive TabError where
  | notInitialized
  | cannotCloseLast
  | outOfRange
  | navigationFailure
  deriving Repr, DecidableEq

deriving instance DecidableEq for Except

/-- The (negation of the) relaunch condition of `ensureBrowser`:
`browser` exists, `browser.connected`, `currentPage` exists and
`!currentPage.isClosed()`. -/
def sessionHealthy (s : SessionState) : Bool :=
  match s.browser, s.currentPage with
  | some b, some p => b.connected && !(s.closedPages.contains p)
  | _, _ => false

/-- `ensureBrowser()`.  `launchPageCount` is the number of pages the engine
reports right after launch (`browser.pages()`); when it is zero the code
opens one via `browser.newPage()`.  The disconnect observer is attached
only when `disconnectHandlerAttached` is false; afterwards the flag is set.
Returns the value of `currentPage!`. -/
def ensureBrowser (launchPageCount : Nat) (s : SessionState) :
    SessionState × Option Nat :=
  if sessionHealthy s then (s, s.currentPage)
  else
    let obs : Nat := if s.disconnectHandlerAttached then 0 else 1
    match (List.range launchPageCount).map (fun i => s.nextId + 1 + i) with
    | [] =>
      let p := s.nextId + 1
      (⟨some ⟨s.nextId, true, obs, [p]⟩, some p, true, s.nextId + 2,
        s.closedPages⟩, some p)
    | p :: rest =>
      (⟨some ⟨s.nextId, true, obs, p :: rest⟩, some p, true,
        s.nextId + 1 + launchPageCount, s.closedPages⟩, some p)

/-- The body of the `'disconnected'` observer closure: clear `browser`,
`currentPage` and reset `disconnectHandlerAttached`. -/
def fireDisconnect (s : SessionState) : SessionState :=
  { s with browser := none, currentPage := none,
           disconnectHandlerAttached := false }

/-- `closeBrowser()`: no-op without a browser, otherwise close it and clear
both pieces of state (the flag is only reset by the disconnect observer). -/
def closeBrowser (s : SessionState) : SessionState :=
  match s.browser with
  | none => s
  | some b =>
    { s with browser := none, currentPage := none,
             closedPages := b.pages ++ s.closedPages }

/-- `selectTab(tabIndex)`. -/
def selectTab (tabIndex : Int) (s : SessionState) :
    SessionState × Except TabError Nat :=
  match s.browser with
  | none => (s, .error .notInitialized)
  | some b =>
    if tabIndex < 0 ∨ (b.pages.length : Int) ≤ tabIndex then
      (s, .error .outOfRange)
    else
      match jsGet b.pages tabIndex with
      | some p => ({ s with currentPage := some p }, .ok p)
      | none => (s, .error .outOfRange)

/-- `createNewTab(url?)`.  `navFails` tells whether `newPage.goto(url)`
throws; in that case the exception propagates before
`currentPage = newPage` is executed, but the page has already been opened. -/
def createNewTab (url : Option String) (navFails : Bool) (s : SessionState) :
    SessionState × Except TabError Nat :=
  match s.browser with
  | none => (s, .error .notInitialized)
  | some b =>
    let pid := s.nextId
    let s1 : SessionState :=
      { s with browser := some { b with pages := b.pages ++ [pid] },
               nextId := s.nextId + 1 }
    match url with
    | some _ =>
      if navFails then (s1, .error .navigationFailure)
      else ({ s1 with currentPage := some pid }, .ok pid)
    | none => ({ s1 with currentPage := some pid }, .ok pid)

/-- `closeTab(tabIndex)`, including the exact re-pointing arithmetic
`newIndex = tabIndex < pages.length - 1 ? tabIndex : tabIndex - 1;
currentPage = pages[newIndex === tabIndex ? newIndex - 1 : newIndex]`. -/
def closeTab (tabIndex : Int) (s : SessionState) :
    SessionState × Except TabError Unit :=
  match s.browser with
  | none => (s, .error .notInitialized)
  | some b =>
    let pages := b.pages
    if (pages.length : Int) ≤ 1 then (s, .error .cannotCloseLast)
    else if tabIndex < 0 ∨ (pages.length : Int) ≤ tabIndex then
      (s, .error .outOfRange)
    else
      match jsGet pages tabIndex with
      | none => (s, .error .outOfRange)
      | some pageToClose =>
        let cur' : Option Nat :=
          if s.currentPage = some pageToClose then
            let newIndex : Int :=
              if tabIndex < (pages.length : Int) - 1 then tabIndex
              else tabIndex - 1
            jsGet pages (if newIndex = tabIndex then newIndex - 1 else newIndex)
          else s.currentPage
        ({ s with
           browser := some { b with pages := pages.eraseIdx tabIndex.toNat },
           currentPage := cur',
           closedPages := pageToClose :: s.closedPages }, .ok ())

/-- The state invariant of §3 of the design: a present `currentPage` points
into the live browser's page list, and without a browser there is no
`currentPage`. -/
def sessionInv (s : SessionState) : Bool :=
  match s.browser, s.currentPage with
  | some b, some p => b.pages.contains p
  | some _, none => true
  | none, none => true
  | none, some _ => false

/-- Number of open pages of the live browser (0 without a browser). -/
def pagesCount (s : SessionState) : Nat :=
  match s.browser with
  | some b => b.pages.length
  | none => 0

/-!
Embedding of the in-page script of the `puppeteer_interactable_elements`
tool (`src/config/browser.ts`): the document is the flattened
`document.querySelectorAll('*')` enumeration, each element carrying its
attribute list (in document order), text content, the computed-style
fields the script reads, and the number of same-tag siblings preceding it
(`siblings.filter(child => child.tagName === el.tagName).indexOf(el)`).
`getAttribute` returns `none` for a missing attribute (JS `null`); JS
string truthiness maps `null` and `""` to false.
-/

/-- One DOM element as observed by the extraction script. -/
structure DomElement where
  tagName : String
  attrs : List (String × String)
  textContent : String
  display : String
  visibility : String
  opacity : String
  cursor : String
  prevSameTagSiblings : Nat
  deriving Repr, DecidableEq

/-- `el.getAttribute(n)`. -/
def getAttr (el : DomElement) (n : String) : Option String :=
  el.attrs.lookup n

/-- `el.hasAttribute(n)`. -/
def hasAttr (el : DomElement) (n : String) : Bool :=
  (getAttr el n).isSome

/-- `el.getAttribute(n)` with JS falsy (`null` or `""`) collapsed to `""`,
for truthiness-guarded uses. -/
def attrD (el : DomElement) (n : String) : String :=
  (getAttr el n).getD ""

/-- `el.getAttribute(n)` kept only when truthy. -/
def truthyAttr (el : DomElement) (n : String) : Option String :=
  match getAttr el n with
  | some v => if v = "" then none else some v
  | none => none

/-- `el.id` (the empty string when the attribute is absent). -/
def elId (el : DomElement) : String := attrD el "id"

/-- `el.className` (a string for HTML elements; empty when absent). -/
def elClassName (el : DomElement) : String := attrD el "class"

/-- The visibility filter: computed style `display:none`,
`visibility:hidden` or `opacity:0`. -/
def isHiddenStyle (el : DomElement) : Bool :=
  el.display == "none" || el.visibility == "hidden" || el.opacity == "0"

/-- The fixed interactive tag set. -/
def interactiveTags : List String :=
  ["A", "BUTTON", "INPUT", "SELECT", "TEXTAREA", "DETAILS", "SUMMARY", "LABEL"]

/-- The fixed interactive ARIA role set. -/
def interactiveRoles : List String :=
  ["button", "link", "menuitem", "tab", "checkbox", "radio", "slider",
   "spinbutton", "textbox"]

/-- The `isInteractable` predicate of the in-page script. -/
def isInteractable (el : DomElement) : Bool :=
  interactiveTags.contains el.tagName ||
  hasAttr el "contenteditable" ||
  hasAttr el "onclick" || hasAttr el "onmousedown" || hasAttr el "ondblclick" ||
  hasAttr el "onchange" || hasAttr el "oninput" ||
  (hasAttr el "role" && interactiveRoles.contains (attrD el "role")) ||
  hasAttr el "tabindex" ||
  el.cursor == "pointer"

/-- JS `s.trim()` (computed structurally on the character list). -/
def jsTrim (s : String) : String :=
  ⟨((s.data.dropWhile Char.isWhitespace).reverse.dropWhile
      Char.isWhitespace).reverse⟩

/-- JS `s.length`. -/
def jsLength (s : String) : Nat := s.data.length

/-- JS `s.slice(0, n)`. -/
def jsTake (s : String) (n : Nat) : String := ⟨s.data.take n⟩

/-- JS `s.startsWith(pre)`. -/
def jsStartsWith (s pre : String) : Bool := pre.data.isPrefixOf s.data

/-- JS `s.toLowerCase()` (ASCII, which covers HTML tag names). -/
def jsToLower (s : String) : String := ⟨s.data.map Char.toLower⟩

/-- First attribute whose name starts with `data-` and whose value is
truthy (the scan breaks after the first hit). -/
def firstDataAttr (el : DomElement) : Option (String × String) :=
  el.attrs.find? (fun a => jsStartsWith a.1 "data-" && a.2 != "")

/-- `text.replace(/"/g, '\\"')`. -/
def escapeQuotes (s : String) : String :=
  ⟨(s.data.map (fun c => if c = '"' then ['\\', '"'] else [c])).flatten⟩

/-- `el.tagName.toLowerCase()`. -/
def tagLower (el : DomElement) : String := jsToLower el.tagName

/-- `s.trim().split(/\s+/)[0]`: the leading maximal run of non-whitespace
of the trimmed string (empty when the string is all whitespace, matching
`''.split(/\s+/)[0] === ''`). -/
def firstClassToken (s : String) : String :=
  ⟨(jsTrim s).data.takeWhile (fun c => !c.isWhitespace)⟩

/-- The ranked selector candidate list, in the source's push order:
id, name, first data-* attribute, first class token, tag[type], text
containment for BUTTON/A, and the always-present nth-of-type fallback. -/
def buildSelectors (el : DomElement) : List String :=
  (if elId el != "" then ["#" ++ elId el] else []) ++
  (match truthyAttr el "name" with
   | some v => ["[name=\"" ++ v ++ "\"]"]
   | none => []) ++
  (match firstDataAttr el with
   | some a => ["[" ++ a.1 ++ "=\"" ++ a.2 ++ "\"]"]
   | none => []) ++
  (if elClassName el != "" then
    (if firstClassToken (elClassName el) != "" then
      ["." ++ firstClassToken (elClassName el)]
     else [])
   else []) ++
  (match truthyAttr el "type" with
   | some v => [tagLower el ++ "[type=\"" ++ v ++ "\"]"]
   | none => []) ++
  (if jsTrim el.textContent != "" && jsLength (jsTrim el.textContent) ≤ 30 then
    (if el.tagName == "BUTTON" then
      ["button[text*=\"" ++ escapeQuotes (jsTrim el.textContent) ++ "\"]"]
     else if el.tagName == "A" then
      ["a[text*=\"" ++ escapeQuotes (jsTrim el.textContent) ++ "\"]"]
     else [])
   else []) ++
  [tagLower el ++ ":nth-of-type(" ++ toString (el.prevSameTagSiblings + 1) ++ ")"]

/-- JS `a || b` on strings. -/
def jsOr (a b : String) : String := if a = "" then b else a

/-- The description chain: text (50 chars), aria-label, title, placeholder,
alt, href, value, synthesized `TAG[type][role]`, then `No description`. -/
def describeElement (el : DomElement) : String :=
  let text := jsTrim el.textContent
  let fallback :=
    el.tagName ++
    (if attrD el "type" != "" then "[" ++ attrD el "type" ++ "]" else "") ++
    (if attrD el "role" != "" then "[" ++ attrD el "role" ++ "]" else "")
  jsOr
    (jsOr (jsTake text 50)
      (jsOr (attrD el "aria-label")
        (jsOr (attrD el "title")
          (jsOr (attrD el "placeholder")
            (jsOr (attrD el "alt")
              (jsOr (attrD el "href")
                (jsOr (attrD el "value") fallback)))))))
    "No description"

/-- The fixed attribute whitelist, copied only when truthy, in the
source's assignment order. -/
def captureAttrs (el : DomElement) : List (String × String) :=
  (match truthyAttr el "href" with | some v => [("href", v)] | none => []) ++
  (match truthyAttr el "value" with | some v => [("value", v)] | none => []) ++
  (match truthyAttr el "src" with | some v => [("src", v)] | none => []) ++
  (match truthyAttr el "action" with | some v => [("action", v)] | none => []) ++
  (match truthyAttr el "target" with | some v => [("target", v)] | none => []) ++
  (match truthyAttr el "type" with | some v => [("type", v)] | none => []) ++
  (match truthyAttr el "name" with | some v => [("name", v)] | none => [])

/-- The record pushed for one interactable element. -/
structure ElementRecord where
  selector : String
  description : String
  tag : String
  type : Option String
  attributes : List (String × String)
  alternatives : List String
  deriving Repr, DecidableEq

/-- Assembles the pushed record: primary selector `selectors[0]` (with the
tag-name fallback of `selectors[0] || el.tagName.toLowerCase()`),
`type: typeAttr || null`, and `alternatives: selectors.slice(1, 3)`. -/
def mkRecord (el : DomElement) : ElementRecord :=
  { selector := (buildSelectors el).headD (tagLower el)
    description := describeElement el
    tag := el.tagName
    type := truthyAttr el "type"
    attributes := captureAttrs el
    alternatives := ((buildSelectors el).drop 1).take 2 }

/-- An element contributes a record iff it passes the visibility filter
(or hidden elements are requested) and is interactable. -/
def matchPred (includeHidden : Bool) (el : DomElement) : Bool :=
  (includeHidden || !isHiddenStyle el) && isInteractable el

/-- The traversal loop
`for (i = 0; i < allElements.length && elements.length < maxElements; i++)`
with its two `continue` branches and the push. -/
def extractGo (includeHidden : Bool) (maxElements : Nat)
    (acc : List ElementRecord) : List DomElement → List ElementRecord
  | [] => acc
  | el :: rest =>
    if maxElements ≤ acc.length then acc
    else if !includeHidden && isHiddenStyle el then
      extractGo includeHidden maxElements acc rest
    else if !(isInteractable el) then
      extractGo includeHidden maxElements acc rest
    else extractGo includeHidden maxElements (acc ++ [mkRecord el]) rest

/-- The whole in-page extraction over the document-order enumeration. -/
def interactableElements (includeHidden : Bool) (maxElements : Nat)
    (doc : List DomElement) : List ElementRecord :=
  extractGo includeHidden maxElements [] doc

/-- The console-listener bookkeeping of one `puppeteer_evaluate` call:
`page.on('console', listener)`, then `page.evaluate` (which may reject),
then — only when it did not reject — `page.off('console', listener)`.
Input and output are the number of console listeners registered on the
page; the second component is the `isError` flag of the returned result. -/
def puppeteerEvaluate (evalRejects : Bool) (listeners : Nat) : Nat × Bool :=
  let afterOn := listeners + 1
  if evalRejects then (afterOn, true) else (afterOn - 1, false)

/-- The DOM element of the C6 scenario:
`<button id="go" class="primary">Go</button>`, visible, sole BUTTON child
of its parent. -/
def goButton : DomElement :=
  { tagName := "BUTTON", attrs := [("id", "go"), ("class", "primary")],
    textContent := "Go", display := "inline-block", visibility := "visible",
    opacity := "1", cursor := "pointer", prevSameTagSiblings := 0 }

/-- A run from the empty initial state: launch (one initial page), create a
second tab, select tab 0, close tab 0 (which is current, so the re-pointing
arithmetic reads `pages[-1]` and leaves `currentPage` undefined), then call
`ensureBrowser` again — which relaunches while `disconnectHandlerAttached`
is still set. -/
def relaunchTrace : SessionState :=
  (ensureBrowser 1
    (closeTab 0
      (selectTab 0
        (createNewTab none false
          (ensureBrowser 1 ⟨none, none, false, 0, []⟩).1).1).1).1).1

/-! ### List helper lemmas -/

theorem mem_eraseIdx_of_getElem_lt {l : List Nat} {i j : Nat} {q : Nat}
    (hq : l[j]? = some q) (hji : j < i) : q ∈ l.eraseIdx i := by
  induction l generalizing i j with
  | nil => simp at hq
  | cons a t ih =>
    cases i with
    | zero => omega
    | succ i' =>
      cases j with
      | zero =>
        simp only [List.getElem?_cons_zero, Option.some.injEq] at hq
        subst hq
        simp [List.eraseIdx_cons_succ]
      | succ j' =>
        rw [List.getElem?_cons_succ] at hq
        simp only [List.eraseIdx_cons_succ, List.mem_cons]
        exact Or.inr (ih hq (by omega))

theorem mem_eraseIdx_of_ne {l : List Nat} {i : Nat} {p q : Nat}
    (hp : p ∈ l) (hq : l[i]? = some q) (hne : p ≠ q) : p ∈ l.eraseIdx i := by
  induction l generalizing i with
  | nil => simp at hp
  | cons a t ih =>
    cases i with
    | zero =>
      simp only [List.getElem?_cons_zero, Option.some.injEq] at hq
      subst hq
      rcases List.mem_cons.mp hp with h | h
      · exact absurd h hne
      · simpa [List.eraseIdx_cons_zero] using h
    | succ i' =>
      rw [List.getElem?_cons_succ] at hq
      rcases List.mem_cons.mp hp with h | h
      · subst h
        simp [List.eraseIdx_cons_succ]
      · simp only [List.eraseIdx_cons_succ, List.mem_cons]
        exact Or.inr (ih h hq)

/-! ### Step lemmas for the session operations -/

theorem closeTab_browser_none {s : SessionState} (hb : s.browser = none) (i : Int) :
    closeTab i s = (s, .error .notInitialized) := by
  simp [closeTab, hb]

theorem closeTab_lastTab {s : SessionState} {b : Browser} (hb : s.browser = some b)
    (h : b.pages.length ≤ 1) (i : Int) :
    closeTab i s = (s, .error .cannotCloseLast) := by
  simp only [closeTab, hb]
  rw [if_pos (show ((b.pages.length : Int) ≤ 1) by omega)]

theorem closeTab_outOfRange {s : SessionState} {b : Browser} (hb : s.browser = some b)
    {i : Int} (h2 : 2 ≤ b.pages.length)
    (hout : i < 0 ∨ (b.pages.length : Int) ≤ i) :
    closeTab i s = (s, .error .outOfRange) := by
  simp only [closeTab, hb]
  rw [if_neg (show ¬((b.pages.length : Int) ≤ 1) by omega), if_pos hout]

theorem closeTab_success {s : SessionState} {b : Browser} (hb : s.browser = some b)
    {i : Int} (h2 : 2 ≤ b.pages.length) (h0 : 0 ≤ i)
    (hi : i.toNat < b.pages.length) :
    closeTab i s =
      ({ s with
         browser := some { b with pages := b.pages.eraseIdx i.toNat },
         currentPage :=
           if s.currentPage = some b.pages[i.toNat] then jsGet b.pages (i - 1)
           else s.currentPage,
         closedPages := b.pages[i.toNat] :: s.closedPages }, .ok ()) := by
  have hidx : (if (if i < (b.pages.length : Int) - 1 then i else i - 1) = i
               then (if i < (b.pages.length : Int) - 1 then i else i - 1) - 1
               else (if i < (b.pages.length : Int) - 1 then i else i - 1)) = i - 1 := by
    rcases lt_or_ge i ((b.pages.length : Int) - 1) with hc | hc
    · rw [if_pos hc]
      rw [if_pos rfl]
    · rw [if_neg (not_lt.mpr hc)]
      rw [if_neg (show ¬(i - 1 = i) by omega)]
  simp only [closeTab, hb]
  rw [if_neg (show ¬((b.pages.length : Int) ≤ 1) by omega),
      if_neg (show ¬(i < 0 ∨ (b.pages.length : Int) ≤ i) by omega),
      show jsGet b.pages i = some (b.pages[i.toNat]) from by
        simp [jsGet, h0, List.getElem?_eq_getElem hi]]
  rw [hidx]

theorem selectTab_browser_none {s : SessionState} (hb : s.browser = none) (i : Int) :
    selectTab i s = (s, .error .notInitialized) := by
  simp [selectTab, hb]

theorem selectTab_outOfRange {s : SessionState} {b : Browser} (hb : s.browser = some b)
    {i : Int} (hout : i < 0 ∨ (b.pages.length : Int) ≤ i) :
    selectTab i s = (s, .error .outOfRange) := by
  simp only [selectTab, hb]
  rw [if_pos hout]

theorem selectTab_success {s : SessionState} {b : Browser} (hb : s.browser = some b)
    {i : Int} (h0 : 0 ≤ i) (hi : i.toNat < b.pages.length) :
    selectTab i s =
      ({ s with currentPage := some (b.pages[i.toNat]) }, .ok (b.pages[i.toNat])) := by
  simp only [selectTab, hb]
  rw [if_neg (show ¬(i < 0 ∨ (b.pages.length : Int) ≤ i) by omega),
      show jsGet b.pages i = some (b.pages[i.toNat]) from by
        simp [jsGet, h0, List.getElem?_eq_getElem hi]]

theorem createNewTab_browser_none {s : SessionState} (hb : s.browser = none)
    (u : Option String) (nf : Bool) :
    createNewTab u nf s = (s, .error .notInitialized) := by
  simp [createNewTab, hb]

theorem createNewTab_ok {s : SessionState} {b : Browser} (hb : s.browser = some b)
    (u : Option String) :
    createNewTab u false s =
      ({ s with browser := some { b with pages := b.pages ++ [s.nextId] },
                nextId := s.nextId + 1,
                currentPage := some s.nextId }, .ok s.nextId) := by
  cases u <;> simp [createNewTab, hb]

theorem createNewTab_none_url {s : SessionState} {b : Browser} (hb : s.browser = some b)
    (nf : Bool) :
    createNewTab none nf s =
      ({ s with browser := some { b with pages := b.pages ++ [s.nextId] },
                nextId := s.nextId + 1,
                currentPage := some s.nextId }, .ok s.nextId) := by
  simp [createNewTab, hb]

theorem createNewTab_navFail {s : SessionState} {b : Browser} (hb : s.browser = some b)
    (u : String) :
    createNewTab (some u) true s =
      ({ s with browser := some { b with pages := b.pages ++ [s.nextId] },
                nextId := s.nextId + 1 }, .error .navigationFailure) := by
  simp [createNewTab, hb]

theorem ensureBrowser_healthy {s : SessionState} (h : sessionHealthy s = true) (k : Nat) :
    ensureBrowser k s = (s, s.currentPage) := by
  simp [ensureBrowser, h]

theorem ensureBrowser_launch {s : SessionState} (h : sessionHealthy s = false) (k : Nat) :
    ∃ pg n, ensureBrowser k s =
      (⟨some ⟨s.nextId, true, (if s.disconnectHandlerAttached then 0 else 1),
          (s.nextId + 1) :: pg⟩, some (s.nextId + 1), true, n, s.closedPages⟩,
       some (s.nextId + 1)) := by
  cases k with
  | zero => exact ⟨[], s.nextId + 2, by simp [ensureBrowser, h]⟩
  | succ k' =>
    refine ⟨((List.range k').map Nat.succ).map (fun i => s.nextId + 1 + i),
            s.nextId + 1 + (k' + 1), ?_⟩
    simp [ensureBrowser, h, List.range_succ_eq_map]

/-! ### Claim theorems -/

/-- C2: every operation on the session state (ensureBrowser, closeBrowser,
selectTab, createNewTab, closeTab, and the disconnect event) preserves the
invariant: a present current-page pointer references a page of the single
live browser handle, and without a browser handle there is no current-page
pointer. -/
theorem sessionInv_preserved (s : SessionState) (h : sessionInv s = true) :
    (∀ k, sessionInv (ensureBrowser k s).1 = true) ∧
    sessionInv (closeBrowser s) = true ∧
    (∀ i, sessionInv (selectTab i s).1 = true) ∧
    (∀ u nf, sessionInv (createNewTab u nf s).1 = true) ∧
    (∀ i, sessionInv (closeTab i s).1 = true) ∧
    sessionInv (fireDisconnect s) = true := by
  refine ⟨?_, ?_, ?_, ?_, ?_, ?_⟩
  · -- ensureBrowser
    intro k
    by_cases hh : sessionHealthy s = true
    · rw [ensureBrowser_healthy hh]; exact h
    · have hf : sessionHealthy s = false := by
        revert hh; cases sessionHealthy s <;> simp
      obtain ⟨pg, n, he⟩ := ensureBrowser_launch hf k
      rw [he]
      simp [sessionInv]
  · -- closeBrowser
    cases hb : s.browser with
    | none => simpa [closeBrowser, hb] using h
    | some b => simp [closeBrowser, hb, sessionInv]
  · -- selectTab
    intro i
    cases hb : s.browser with
    | none => rw [selectTab_browser_none hb]; exact h
    | some b =>
      by_cases hout : i < 0 ∨ (b.pages.length : Int) ≤ i
      · rw [selectTab_outOfRange hb hout]; exact h
      · have h0 : 0 ≤ i := by omega
        have hi : i.toNat < b.pages.length := by omega
        rw [selectTab_success hb h0 hi]
        simp [sessionInv, hb]
  · -- createNewTab
    intro u nf
    cases hb : s.browser with
    | none => rw [createNewTab_browser_none hb u nf]; exact h
    | some b =>
      match u, nf with
      | some url, true =>
        rw [createNewTab_navFail hb url]
        cases hc : s.currentPage with
        | none => simp [sessionInv]
        | some p =>
          have hmem : p ∈ b.pages := by
            have := h
            simp only [sessionInv, hb, hc] at this
            simpa using this
          simp only [sessionInv]
          simpa using Or.inl hmem
      | some url, false =>
        rw [createNewTab_ok hb (some url)]
        simp [sessionInv]
      | none, nf =>
        rw [createNewTab_none_url hb nf]
        simp [sessionInv]
  · -- closeTab
    intro i
    cases hb : s.browser with
    | none => rw [closeTab_browser_none hb]; exact h
    | some b =>
      by_cases h1 : b.pages.length ≤ 1
      · rw [closeTab_lastTab hb h1]; exact h
      · by_cases hout : i < 0 ∨ (b.pages.length : Int) ≤ i
        · rw [closeTab_outOfRange hb (by omega) hout]; exact h
        · have h2 : 2 ≤ b.pages.length := by omega
          have h0 : 0 ≤ i := by omega
          have hi : i.toNat < b.pages.length := by omega
          rw [closeTab_success hb h2 h0 hi]
          by_cases hcur : s.currentPage = some (b.pages[i.toNat])
          · rw [if_pos hcur]
            by_cases hz : (0 : Int) ≤ i - 1
            · have hi1 : (i - 1).toNat < b.pages.length := by omega
              have hjs : jsGet b.pages (i - 1) = some (b.pages[(i - 1).toNat]) := by
                simp [jsGet, hz, List.getElem?_eq_getElem hi1]
              rw [hjs]
              simp only [sessionInv]
              simpa using mem_eraseIdx_of_getElem_lt
                (List.getElem?_eq_getElem hi1) (show (i - 1).toNat < i.toNat by omega)
            · have hjs : jsGet b.pages (i - 1) = none := by simp [jsGet, hz]
              rw [hjs]
              simp [sessionInv]
          · rw [if_neg hcur]
            cases hc : s.currentPage with
            | none => simp [sessionInv]
            | some p =>
              have hmem : p ∈ b.pages := by
                have := h
                simp only [sessionInv, hb, hc] at this
                simpa using this
              have hne : p ≠ b.pages[i.toNat] := by
                intro he
                exact hcur (by rw [hc, he])
              simp only [sessionInv]
              simpa using mem_eraseIdx_of_ne hmem (List.getElem?_eq_getElem hi) hne
  · -- disconnect event
    simp [sessionInv, fireDisconnect]

/-- C1 (bug evidence): with three open tabs `[10, 11, 12]` and tab 1
(page 11) current, `closeTab 1` succeeds but re-points the current page to
page 10 — the page that was at index `i-1` — instead of page 12 (pre-close
index `i+1`) as the spec and the code's own comment ("Switch to the next
tab") require: `newIndex` is computed as `tabIndex` when
`tabIndex < pages.length - 1`, so the `newIndex === tabIndex` guard fires
and indexes the pre-close array at `tabIndex - 1`. -/
theorem closeTab_middle_current_goes_to_previous :
    closeTab 1 ⟨some ⟨0, true, 1, [10, 11, 12]⟩, some 11, true, 13, []⟩ =
      (⟨some ⟨0, true, 1, [10, 12]⟩, some 10, true, 13, [11]⟩, .ok ()) ∧
    (closeTab 1 ⟨some ⟨0, true, 1, [10, 11, 12]⟩, some 11, true, 13, []⟩).1.currentPage ≠
      some 12 := by
  decide

/-- C3 counterexample: createNewTab with a URL whose navigation fails does
open the tab (page 2 is in the browser's page list) and surfaces the
navigation failure, but the new tab does NOT become the current page:
`currentPage = newPage` is only reached after `goto` returns, so the
current page stays page 1. -/
theorem createNewTab_navFail_cex :
    (createNewTab (some "u") true ⟨some ⟨0, true, 1, [1]⟩, some 1, true, 2, []⟩).2 =
      .error .navigationFailure ∧
    ((createNewTab (some "u") true ⟨some ⟨0, true, 1, [1]⟩, some 1, true, 2, []⟩).1).browser =
      some ⟨0, true, 1, [1, 2]⟩ ∧
    ((createNewTab (some "u") true ⟨some ⟨0, true, 1, [1]⟩, some 1, true, 2, []⟩).1).currentPage ≠
      some 2 := by
  decide

/-- C3 amended: when navigation of the new tab fails, createNewTab surfaces
the navigation failure and the freshly opened tab stays in the page list,
but the current-page pointer is left unchanged (the new tab becomes current
only when navigation succeeds or no URL was given). -/
theorem createNewTab_navFail_keeps_current (s : SessionState) (b : Browser)
    (u : String) (hb : s.browser = some b) :
    createNewTab (some u) true s =
      ({ s with browser := some { b with pages := b.pages ++ [s.nextId] },
                nextId := s.nextId + 1 }, .error .navigationFailure) ∧
    ((createNewTab (some u) true s).1).currentPage = s.currentPage ∧
    (∃ b', ((createNewTab (some u) true s).1).browser = some b' ∧
      s.nextId ∈ b'.pages) := by
  refine ⟨createNewTab_navFail hb u, ?_, ?_⟩
  · rw [createNewTab_navFail hb u]
  · rw [createNewTab_navFail hb u]
    exact ⟨_, rfl, by simp⟩

/-- Witness for the amended C3 at a concrete one-tab session. -/
theorem createNewTab_navFail_keeps_current_witness :
    (⟨some ⟨0, true, 1, [1]⟩, some 1, true, 2, []⟩ : SessionState).browser =
      some ⟨0, true, 1, [1]⟩ ∧
    (createNewTab (some "u") true ⟨some ⟨0, true, 1, [1]⟩, some 1, true, 2, []⟩ =
      (⟨some ⟨0, true, 1, [1, 2]⟩, some 1, true, 3, []⟩, .error .navigationFailure) ∧
     ((createNewTab (some "u") true ⟨some ⟨0, true, 1, [1]⟩, some 1, true, 2, []⟩).1).currentPage =
       some 1 ∧
    (∃ b', ((createNewTab (some "u") true ⟨some ⟨0, true, 1, [1]⟩, some 1, true, 2, []⟩).1).browser =
      some b' ∧ (2 : Nat) ∈ b'.pages)) :=
  ⟨rfl, by
    exact createNewTab_navFail_keeps_current
      ⟨some ⟨0, true, 1, [1]⟩, some 1, true, 2, []⟩ ⟨0, true, 1, [1]⟩ "u" rfl⟩

/-- C4 counterexample: after the five-step `relaunchTrace` run the live
browser handle (id 3) was launched while `disconnectHandlerAttached` was
still `true` (no disconnect ever fired), so no disconnect observer was
attached to it during its lifetime. -/
theorem relaunch_without_disconnect_no_observer_cex :
    relaunchTrace.browser = some ⟨3, true, 0, [4]⟩ ∧
    Option.map Browser.observerCount relaunchTrace.browser = some 0 := by
  decide

/-- C4 amended: a launch attaches a disconnect observer iff the process-wide
flag is clear (so a relaunch without an intervening disconnect attaches
none), the flag is set after every launch, the disconnect event clears the
browser handle, the current-page pointer and the flag, and the next
ensureBrowser after a disconnect relaunches with exactly one observer. -/
theorem disconnect_observer_flagged (s : SessionState) (k : Nat)
    (h : sessionHealthy s = false) :
    (∃ b, ((ensureBrowser k s).1).browser = some b ∧
       b.observerCount = (if s.disconnectHandlerAttached then 0 else 1)) ∧
    ((ensureBrowser k s).1).disconnectHandlerAttached = true ∧
    (fireDisconnect s).browser = none ∧
    (fireDisconnect s).currentPage = none ∧
    (fireDisconnect s).disconnectHandlerAttached = false ∧
    (∃ b', ((ensureBrowser k (fireDisconnect s)).1).browser = some b' ∧
       b'.observerCount = 1) := by
  obtain ⟨pg, n, he⟩ := ensureBrowser_launch h k
  have hf2 : sessionHealthy (fireDisconnect s) = false := by
    simp [sessionHealthy, fireDisconnect]
  obtain ⟨pg2, n2, he2⟩ := ensureBrowser_launch hf2 k
  refine ⟨⟨_, by rw [he], rfl⟩, by rw [he], rfl, rfl, rfl, ⟨_, by rw [he2], ?_⟩⟩
  simp [fireDisconnect]

/-- Witness for the amended C4 at the empty initial state. -/
theorem disconnect_observer_flagged_witness :
    sessionHealthy ⟨none, none, false, 0, []⟩ = false ∧
    ((∃ b, ((ensureBrowser 1 (⟨none, none, false, 0, []⟩ : SessionState)).1).browser = some b ∧
        b.observerCount =
          (if (⟨none, none, false, 0, []⟩ : SessionState).disconnectHandlerAttached
           then 0 else 1)) ∧
     ((ensureBrowser 1 (⟨none, none, false, 0, []⟩ : SessionState)).1).disconnectHandlerAttached = true ∧
     (fireDisconnect ⟨none, none, false, 0, []⟩).browser = none ∧
     (fireDisconnect ⟨none, none, false, 0, []⟩).currentPage = none ∧
     (fireDisconnect ⟨none, none, false, 0, []⟩).disconnectHandlerAttached = false ∧
     (∃ b', ((ensureBrowser 1 (fireDisconnect ⟨none, none, false, 0, []⟩)).1).browser = some b' ∧
        b'.observerCount = 1)) :=
  ⟨rfl, disconnect_observer_flagged _ 1 rfl⟩

/-- C5 (bug evidence): one `puppeteer_evaluate` call leaves the number of
console listeners unchanged when `page.evaluate` resolves, but when it
rejects the call returns the failure result without reaching `page.off`,
leaving one extra listener registered — so repeated failing evaluations
accumulate listeners. -/
theorem puppeteerEvaluate_listener_leak (n : Nat) :
    puppeteerEvaluate false n = (n, false) ∧
    puppeteerEvaluate true n = (n + 1, true) ∧
    (puppeteerEvaluate true n).1 ≠ n := by
  refine ⟨by simp [puppeteerEvaluate], rfl, by simp [puppeteerEvaluate]⟩

/-- C6 counterexample: for `<button id="go" class="primary">Go</button>`
the extraction record has primary selector `#go` and description `"Go"`,
and its alternatives do contain `.primary` — but they are
`[".primary", "button[text*=\"Go\"]"]`: the nth-of-type fallback is the
fourth ranked candidate and `slice(1, 3)` cuts it off, so no nth-of-type
selector appears among the alternatives. -/
theorem goButton_alternatives_cex :
    interactableElements false 200 [goButton] = [mkRecord goButton] ∧
    (mkRecord goButton).selector = "#go" ∧
    (mkRecord goButton).description = "Go" ∧
    (mkRecord goButton).alternatives = [".primary", "button[text*=\"Go\"]"] ∧
    "button:nth-of-type(1)" ∉ (mkRecord goButton).alternatives := by
  decide

/-- C6 amended: for `<button id="go" class="primary">Go</button>` the
ranked candidate list is `#go`, `.primary`, the text-containment selector
and the nth-of-type fallback, hence the returned record has primary
selector `#go`, alternatives `.primary` and `button[text*="Go"]` (the
nth-of-type fallback is generated but falls outside the two reported
alternatives), and description `"Go"`. -/
theorem goButton_record :
    buildSelectors goButton =
      ["#go", ".primary", "button[text*=\"Go\"]", "button:nth-of-type(1)"] ∧
    interactableElements false 200 [goButton] =
      [{ selector := "#go", description := "Go", tag := "BUTTON", type := none,
         attributes := [], alternatives := [".primary", "button[text*=\"Go\"]"] }] := by
  decide

/-- Witness for C2: the invariant preservation theorem applied to a
concrete healthy two-tab state. -/
theorem sessionInv_preserved_witness :
    sessionInv ⟨some ⟨0, true, 1, [1, 2]⟩, some 1, true, 3, []⟩ = true ∧
    ((∀ k, sessionInv (ensureBrowser k ⟨some ⟨0, true, 1, [1, 2]⟩, some 1, true, 3, []⟩).1 = true) ∧
     sessionInv (closeBrowser ⟨some ⟨0, true, 1, [1, 2]⟩, some 1, true, 3, []⟩) = true ∧
     (∀ i, sessionInv (selectTab i ⟨some ⟨0, true, 1, [1, 2]⟩, some 1, true, 3, []⟩).1 = true) ∧
     (∀ u nf, sessionInv (createNewTab u nf ⟨some ⟨0, true, 1, [1, 2]⟩, some 1, true, 3, []⟩).1 = true) ∧
     (∀ i, sessionInv (closeTab i ⟨some ⟨0, true, 1, [1, 2]⟩, some 1, true, 3, []⟩).1 = true) ∧
     sessionInv (fireDisconnect ⟨some ⟨0, true, 1, [1, 2]⟩, some 1, true, 3, []⟩) = true) :=
  ⟨by decide, sessionInv_preserved _ (by decide)⟩

/-- C7: the live browser never reaches zero open tabs: closeTab rejects
with the cannot-close-last error whenever fewer than two pages are open,
whatever the index, leaving the state unchanged, and both tab creation and
tab closure keep the open-page count positive. -/
theorem tabs_never_zero (s : SessionState) (b : Browser) (hb : s.browser = some b) :
    (b.pages.length < 2 → ∀ i, closeTab i s = (s, .error .cannotCloseLast)) ∧
    (0 < b.pages.length →
      (∀ u nf, 0 < pagesCount (createNewTab u nf s).1) ∧
      (∀ i, 0 < pagesCount (closeTab i s).1)) := by
  constructor
  · intro hlt i
    exact closeTab_lastTab hb (by omega) i
  · intro hpos
    constructor
    · intro u nf
      match u, nf with
      | some url, true =>
        rw [createNewTab_navFail hb url]
        simp [pagesCount]
      | some url, false =>
        rw [createNewTab_ok hb (some url)]
        simp [pagesCount]
      | none, nf =>
        rw [createNewTab_none_url hb nf]
        simp [pagesCount]
    · intro i
      by_cases h1 : b.pages.length ≤ 1
      · rw [closeTab_lastTab hb h1 i]
        simpa [pagesCount, hb] using hpos
      · by_cases hout : i < 0 ∨ (b.pages.length : Int) ≤ i
        · rw [closeTab_outOfRange hb (by omega) hout]
          simpa [pagesCount, hb] using hpos
        · rw [closeTab_success hb (by omega) (by omega) (by omega)]
          simp only [pagesCount]
          rw [List.length_eraseIdx, if_pos (by omega)]
          omega

/-- Witness for C7: a one-tab session rejects any close, and tab creation
keeps the count positive. -/
theorem tabs_never_zero_witness :
    (⟨some ⟨0, true, 1, [5]⟩, some 5, true, 6, []⟩ : SessionState).browser =
      some ⟨0, true, 1, [5]⟩ ∧
    (((Browser.pages ⟨0, true, 1, [5]⟩).length < 2 →
       ∀ i, closeTab i ⟨some ⟨0, true, 1, [5]⟩, some 5, true, 6, []⟩ =
         (⟨some ⟨0, true, 1, [5]⟩, some 5, true, 6, []⟩, .error .cannotCloseLast)) ∧
     (0 < (Browser.pages ⟨0, true, 1, [5]⟩).length →
       (∀ u nf, 0 < pagesCount (createNewTab u nf ⟨some ⟨0, true, 1, [5]⟩, some 5, true, 6, []⟩).1) ∧
       (∀ i, 0 < pagesCount (closeTab i ⟨some ⟨0, true, 1, [5]⟩, some 5, true, 6, []⟩).1))) :=
  ⟨rfl, tabs_never_zero _ _ rfl⟩

/-- C9: a first ensureBrowser on a browserless state launches and returns a
page, and an immediately following call (browser still connected, that page
still open) returns the same page handle with the state untouched — no new
launch. -/
theorem ensureBrowser_idempotent (s : SessionState) (k kk : Nat)
    (hb : s.browser = none)
    (hcl : ∀ c ∈ s.closedPages, c < s.nextId) :
    ∃ p, (ensureBrowser k s).2 = some p ∧
      (ensureBrowser k s).1.currentPage = some p ∧
      ensureBrowser kk (ensureBrowser k s).1 = ((ensureBrowser k s).1, some p) := by
  have hf : sessionHealthy s = false := by simp [sessionHealthy, hb]
  obtain ⟨pg, n, he⟩ := ensureBrowser_launch hf k
  refine ⟨s.nextId + 1, by rw [he], by rw [he], ?_⟩
  have hmem : (s.nextId + 1) ∉ s.closedPages := fun hm => absurd (hcl _ hm) (by omega)
  have hh : sessionHealthy (ensureBrowser k s).1 = true := by
    rw [he]
    simpa [sessionHealthy] using hmem
  rw [ensureBrowser_healthy hh kk, he]

/-- Witness for C9 at the empty initial state. -/
theorem ensureBrowser_idempotent_witness :
    (⟨none, none, false, 0, []⟩ : SessionState).browser = none ∧
    (∀ c ∈ (⟨none, none, false, 0, []⟩ : SessionState).closedPages,
      c < (⟨none, none, false, 0, []⟩ : SessionState).nextId) ∧
    (∃ p, (ensureBrowser 1 (⟨none, none, false, 0, []⟩ : SessionState)).2 = some p ∧
      (ensureBrowser 1 (⟨none, none, false, 0, []⟩ : SessionState)).1.currentPage = some p ∧
      ensureBrowser 2 (ensureBrowser 1 (⟨none, none, false, 0, []⟩ : SessionState)).1 =
        ((ensureBrowser 1 (⟨none, none, false, 0, []⟩ : SessionState)).1, some p)) :=
  ⟨rfl, by simp, ensureBrowser_idempotent _ 1 2 rfl (by simp)⟩

/-- C10: with exactly one page open, closeTab with an out-of-range index
still fails with the cannot-close-last error (the last-tab check precedes
the range check) and the state is unchanged. -/
theorem closeTab_lastTab_precedes_outOfRange (s : SessionState) (b : Browser) (i : Int)
    (hb : s.browser = some b) (hlen : b.pages.length = 1)
    (_hout : i < 0 ∨ 1 ≤ i) :
    closeTab i s = (s, .error .cannotCloseLast) :=
  closeTab_lastTab hb (by omega) i

/-- Witness for C10: index 5 against a single-tab session. -/
theorem closeTab_lastTab_precedes_outOfRange_witness :
    (⟨some ⟨0, true, 1, [7]⟩, some 7, true, 8, []⟩ : SessionState).browser =
      some ⟨0, true, 1, [7]⟩ ∧
    (Browser.pages ⟨0, true, 1, [7]⟩).length = 1 ∧
    ((5 : Int) < 0 ∨ 1 ≤ (5 : Int)) ∧
    closeTab 5 ⟨some ⟨0, true, 1, [7]⟩, some 7, true, 8, []⟩ =
      (⟨some ⟨0, true, 1, [7]⟩, some 7, true, 8, []⟩, .error .cannotCloseLast) :=
  ⟨rfl, rfl, Or.inr (by decide),
   closeTab_lastTab_precedes_outOfRange _ _ 5 rfl rfl (Or.inr (by decide))⟩

/-- The traversal loop computes the take-`maxElements` prefix of the
records of all matching elements (so it scans past non-matches and stops
only once `maxElements` matches are collected). -/
theorem extractGo_characterization (ih : Bool) (m : Nat) (doc : List DomElement) :
    ∀ acc : List ElementRecord, acc.length ≤ m →
      extractGo ih m acc doc = (acc ++ (doc.filter (matchPred ih)).map mkRecord).take m := by
  induction doc with
  | nil =>
    intro acc hacc
    simp [extractGo, List.take_of_length_le hacc]
  | cons el rest ihd =>
    intro acc hacc
    by_cases hm : m ≤ acc.length
    · have heq : acc.length = m := le_antisymm hacc hm
      rw [show extractGo ih m acc (el :: rest) = acc from by simp [extractGo, hm]]
      rw [← heq, List.take_left]
    · have hlt : acc.length < m := by omega
      by_cases hhid : (!ih && isHiddenStyle el) = true
      · have hpred : matchPred ih el = false := by
          unfold matchPred
          revert hhid
          cases ih <;> cases isHiddenStyle el <;> cases isInteractable el <;> simp
        rw [show extractGo ih m acc (el :: rest) = extractGo ih m acc rest from by
              simp [extractGo, hm, hhid]]
        rw [ihd acc hacc, List.filter_cons, if_neg (by simp [hpred])]
      · by_cases hint : isInteractable el = true
        · have hpred : matchPred ih el = true := by
            unfold matchPred
            revert hhid hint
            cases ih <;> cases isHiddenStyle el <;> cases isInteractable el <;> simp
          rw [show extractGo ih m acc (el :: rest) =
                extractGo ih m (acc ++ [mkRecord el]) rest from by
              simp [extractGo, hm, hhid, hint]]
          rw [ihd (acc ++ [mkRecord el]) (by simp; omega)]
          rw [List.filter_cons, if_pos (by simp [hpred])]
          simp [List.append_assoc]
        · have hpred : matchPred ih el = false := by
            unfold matchPred
            revert hint
            cases ih <;> cases isHiddenStyle el <;> cases isInteractable el <;> simp
          rw [show extractGo ih m acc (el :: rest) = extractGo ih m acc rest from by
              simp [extractGo, hm, hhid, hint]]
          rw [ihd acc hacc, List.filter_cons, if_neg (by simp [hpred])]

/-- C8: extraction returns at most `maxElements` records, equals the
take-`maxElements` prefix of the records of all matching elements (so it
keeps scanning past non-matches and stops only when `maxElements` matches
are collected), and with `includeHidden = false` the hidden elements
(display:none / visibility:hidden / opacity:0) contribute no record at
all. -/
theorem interactableElements_bounded (ih : Bool) (m : Nat) (doc : List DomElement) :
    interactableElements ih m doc =
      ((doc.filter (matchPred ih)).map mkRecord).take m ∧
    (interactableElements ih m doc).length ≤ m ∧
    interactableElements false m doc =
      interactableElements false m (doc.filter (fun el => !isHiddenStyle el)) := by
  have h1 := extractGo_characterization ih m doc [] (by simp)
  have h2 := extractGo_characterization false m doc [] (by simp)
  have h3 := extractGo_characterization false m
    (doc.filter (fun el => !isHiddenStyle el)) [] (by simp)
  have hfilter : (doc.filter (fun el => !isHiddenStyle el)).filter (matchPred false) =
      doc.filter (matchPred false) := by
    rw [List.filter_filter]
    congr 1
    funext a
    unfold matchPred
    cases isHiddenStyle a <;> cases isInteractable a <;> simp
  refine ⟨by simpa [interactableElements] using h1, ?_, ?_⟩
  · rw [show interactableElements ih m doc =
        ((doc.filter (matchPred ih)).map mkRecord).take m from by
          simpa [interactableElements] using h1]
    rw [List.length_take]
    omega
  · simp only [interactableElements]
    rw [h2, h3, hfilter]
